import Mathlib

/-!
Verification of the I/O-control dispatcher of the ViGEmBus virtual gamepad
bus driver (src/sys/Queue.cpp, function Bus_EvtIoDeviceControl).

The dispatcher is embedded shallowly: NTSTATUS values are signed 32-bit
integers (as Lean Int), the WDF environment (buffer retrieval, the PDO
registry, target operations, plug/unplug handlers) is supplied as explicit
data, and every registry or target call the dispatcher makes is recorded in
an action trace so that frame properties ("no lookup performed", "no state
touched") can be stated.
-/

namespace ViGEmBus

/-- NTSTATUS codes, read as signed 32-bit integers (the sign is what
NT_SUCCESS inspects). -/
abbrev NtStatus := Int

def STATUS_SUCCESS : NtStatus := 0

def STATUS_PENDING : NtStatus := 0x103

def STATUS_INVALID_PARAMETER : NtStatus := 0xC000000D - 0x100000000

def STATUS_NOT_SUPPORTED : NtStatus := 0xC00000BB - 0x100000000

def STATUS_DEVICE_DOES_NOT_EXIST : NtStatus := 0xC00000C0 - 0x100000000

def STATUS_INVALID_DEVICE_REQUEST : NtStatus := 0xC0000010 - 0x100000000

def STATUS_BUFFER_TOO_SMALL : NtStatus := 0xC0000023 - 0x100000000

/-- NT_SUCCESS(Status): the signed value is non-negative (success or
informational severity; note STATUS_PENDING is NT_SUCCESS). -/
abbrev NT_SUCCESS (s : NtStatus) : Prop := 0 ≤ s

/-- The two emulated target types the dispatcher distinguishes. -/
inductive TargetType where
  | Xbox360Wired
  | DualShock4Wired
deriving DecidableEq

/-- Modelled from the spec: sizeof(VIGEM_CHECK_VERSION), the fixed size of
the version-check request structure; the structure layouts live in a common
header that is not part of this repository snapshot, so the sizes are fixed
constants here (their exact values are never load-bearing, only their role
as the comparison constants of the dispatcher). -/
def sizeofVIGEM_CHECK_VERSION : Nat := 8

/-- Modelled from the spec: sizeof(XUSB_SUBMIT_REPORT). -/
def sizeofXUSB_SUBMIT_REPORT : Nat := 20

/-- Modelled from the spec: sizeof(XUSB_REQUEST_NOTIFICATION). -/
def sizeofXUSB_REQUEST_NOTIFICATION : Nat := 12

/-- Modelled from the spec: sizeof(DS4_SUBMIT_REPORT). -/
def sizeofDS4_SUBMIT_REPORT : Nat := 72

/-- Modelled from the spec: sizeof(DS4_REQUEST_NOTIFICATION). -/
def sizeofDS4_REQUEST_NOTIFICATION : Nat := 16

/-- Modelled from the spec: sizeof(XUSB_GET_USER_INDEX). -/
def sizeofXUSB_GET_USER_INDEX : Nat := 12

/-- Modelled from the spec: VIGEM_COMMON_VERSION, the dispatcher's compiled
protocol version constant (declared in the shared header outside this
snapshot). -/
def VIGEM_COMMON_VERSION : Nat := 0x0001

/-- Modelled from the spec: the VIGEM_CHECK_VERSION request structure,
beginning with a declared size field and carrying the caller's protocol
version. Only the fields the dispatcher reads are modelled. -/
structure VIGEM_CHECK_VERSION where
  Size : Nat
  Version : Nat

/-- Modelled from the spec: XUSB_SUBMIT_REPORT header fields read by the
dispatcher (the report payload itself is opaque to the dispatch logic). -/
structure XUSB_SUBMIT_REPORT where
  Size : Nat
  SerialNo : Nat

/-- Modelled from the spec: XUSB_REQUEST_NOTIFICATION header fields read by
the dispatcher. -/
structure XUSB_REQUEST_NOTIFICATION where
  Size : Nat
  SerialNo : Nat

/-- Modelled from the spec: DS4_SUBMIT_REPORT header fields read by the
dispatcher. -/
structure DS4_SUBMIT_REPORT where
  Size : Nat
  SerialNo : Nat

/-- Modelled from the spec: DS4_REQUEST_NOTIFICATION header fields read by
the dispatcher. -/
structure DS4_REQUEST_NOTIFICATION where
  Size : Nat
  SerialNo : Nat

/-- Modelled from the spec: XUSB_GET_USER_INDEX request/response structure;
UserIndex is the attribute value written back on success. -/
structure XUSB_GET_USER_INDEX where
  Size : Nat
  SerialNo : Nat
  UserIndex : Nat

/-- Outcome of a WdfRequestRetrieveInputBuffer call for a given structure
type: the returned NTSTATUS, the parsed buffer (meaningful only when the
status is NT_SUCCESS) and the retrieved length. -/
structure Retrieved (α : Type) where
  status : NtStatus
  buf : α
  len : Nat

/-- Behaviour of one emulation-target PDO, as the dispatcher observes it:
the statuses its operations return and (for the XUSB variant) the user
index. GetUserIndex is modelled from the spec (its body is outside this
snapshot): it writes the target's user index into the output structure and
returns a status. -/
structure Pdo where
  submitReportStatus : NtStatus
  enqueueNotificationStatus : NtStatus
  getUserIndexStatus : NtStatus
  userIndex : Nat

/-- One live registry entry: a PDO identified by (type, serial). -/
structure RegistryEntry where
  ttype : TargetType
  serial : Nat
  pdo : Pdo

/-- The PDO registry reachable from the bus device. -/
abbrev Registry := List RegistryEntry

/-- EmulationTargetPDO::GetPdoByTypeAndSerial: look up a live PDO by
(type, serial); a miss is none. -/
def GetPdoByTypeAndSerial (Device : Registry) (t : TargetType) (serial : Nat) :
    Option Pdo :=
  (Device.find? fun e => e.ttype = t ∧ e.serial = serial).map RegistryEntry.pdo

/-- A WDF request as the dispatcher sees it: the retrieval outcome for each
structure type it may ask for, plus the results of the plug-in and unplug
handlers (Bus_PlugInDevice / Bus_UnPlugDevice, which live outside
Queue.cpp and are treated as environment-supplied status/length pairs). -/
structure Request where
  retrieveCheckVersion : Retrieved VIGEM_CHECK_VERSION
  retrieveXusbSubmit : Retrieved XUSB_SUBMIT_REPORT
  retrieveXusbNotify : Retrieved XUSB_REQUEST_NOTIFICATION
  retrieveDs4Submit : Retrieved DS4_SUBMIT_REPORT
  retrieveDs4Notify : Retrieved DS4_REQUEST_NOTIFICATION
  retrieveXusbGetUserIndex : Retrieved XUSB_GET_USER_INDEX
  plugInResult : NtStatus × Nat
  unplugResult : NtStatus × Nat

/-- The I/O control codes the switch distinguishes; unknown carries any
other code value. -/
inductive IoControlCode where
  | IOCTL_VIGEM_CHECK_VERSION
  | IOCTL_VIGEM_PLUGIN_TARGET
  | IOCTL_VIGEM_UNPLUG_TARGET
  | IOCTL_XUSB_SUBMIT_REPORT
  | IOCTL_XUSB_REQUEST_NOTIFICATION
  | IOCTL_DS4_SUBMIT_REPORT
  | IOCTL_DS4_REQUEST_NOTIFICATION
  | IOCTL_XUSB_GET_USER_INDEX
  | unknown (code : Nat)

/-- Registry/target calls the dispatcher performs, in order. lookup is the
read-only registry query; all others reach mutable registry or target
state. -/
inductive Action where
  | lookup (t : TargetType) (serial : Nat)
  | submitReport (t : TargetType) (serial : Nat)
  | enqueueNotification (t : TargetType) (serial : Nat)
  | getUserIndex (serial : Nat)
  | plugIn
  | unplug

/-- Result of one Bus_EvtIoDeviceControl invocation: the final status and
length, the trace of registry/target calls, the completion performed at the
end of the function (none exactly when the status is STATUS_PENDING), and
the user index written into the output structure, when any. -/
structure DispatchResult where
  status : NtStatus
  length : Nat
  actions : List Action
  completion : Option (NtStatus × Nat)
  writtenUserIndex : Option Nat

/-- The tail of Bus_EvtIoDeviceControl: WdfRequestCompleteWithInformation
is called with (status, length) unless the status is STATUS_PENDING. -/
def finishRequest (status : NtStatus) (length : Nat) (actions : List Action)
    (writtenUserIndex : Option Nat) : DispatchResult :=
  { status := status
    length := length
    actions := actions
    completion := if status = STATUS_PENDING then none else some (status, length)
    writtenUserIndex := writtenUserIndex }

/-- Shallow embedding of Bus_EvtIoDeviceControl (src/sys/Queue.cpp): status
starts as STATUS_INVALID_PARAMETER and length as 0; each case mirrors the
corresponding switch branch, and the function ends with the conditional
completion. -/
def Bus_EvtIoDeviceControl (Device : Registry) (req : Request)
    (OutputBufferLength InputBufferLength : Nat) :
    IoControlCode → DispatchResult
  | .IOCTL_VIGEM_CHECK_VERSION =>
    let r := req.retrieveCheckVersion
    let length := if NT_SUCCESS r.status then r.len else 0
    if ¬ NT_SUCCESS r.status ∨ length ≠ sizeofVIGEM_CHECK_VERSION then
      finishRequest STATUS_INVALID_PARAMETER length [] none
    else
      finishRequest
        (if r.buf.Version = VIGEM_COMMON_VERSION then STATUS_SUCCESS
         else STATUS_NOT_SUPPORTED)
        length [] none
  | .IOCTL_VIGEM_PLUGIN_TARGET =>
    finishRequest req.plugInResult.1 req.plugInResult.2 [.plugIn] none
  | .IOCTL_VIGEM_UNPLUG_TARGET =>
    finishRequest req.unplugResult.1 req.unplugResult.2 [.unplug] none
  | .IOCTL_XUSB_SUBMIT_REPORT =>
    let r := req.retrieveXusbSubmit
    if ¬ NT_SUCCESS r.status then
      finishRequest r.status 0 [] none
    else
      let length := r.len
      let xusbSubmit := r.buf
      if sizeofXUSB_SUBMIT_REPORT = xusbSubmit.Size ∧ length = InputBufferLength then
        if xusbSubmit.SerialNo = 0 then
          finishRequest STATUS_INVALID_PARAMETER length [] none
        else
          match GetPdoByTypeAndSerial Device .Xbox360Wired xusbSubmit.SerialNo with
          | none =>
            finishRequest STATUS_DEVICE_DOES_NOT_EXIST length
              [.lookup .Xbox360Wired xusbSubmit.SerialNo] none
          | some pdo =>
            finishRequest pdo.submitReportStatus length
              [.lookup .Xbox360Wired xusbSubmit.SerialNo,
               .submitReport .Xbox360Wired xusbSubmit.SerialNo] none
      else
        finishRequest r.status length [] none
  | .IOCTL_XUSB_REQUEST_NOTIFICATION =>
    if OutputBufferLength < sizeofXUSB_REQUEST_NOTIFICATION then
      finishRequest STATUS_INVALID_PARAMETER 0 [] none
    else
      let r := req.retrieveXusbNotify
      if ¬ NT_SUCCESS r.status then
        finishRequest r.status 0 [] none
      else
        let length := r.len
        let xusbNotify := r.buf
        if sizeofXUSB_REQUEST_NOTIFICATION = xusbNotify.Size ∧ length = InputBufferLength then
          if xusbNotify.SerialNo = 0 then
            finishRequest STATUS_INVALID_PARAMETER length [] none
          else
            match GetPdoByTypeAndSerial Device .Xbox360Wired xusbNotify.SerialNo with
            | none =>
              finishRequest STATUS_DEVICE_DOES_NOT_EXIST length
                [.lookup .Xbox360Wired xusbNotify.SerialNo] none
            | some pdo =>
              finishRequest
                (if NT_SUCCESS pdo.enqueueNotificationStatus then STATUS_PENDING
                 else pdo.enqueueNotificationStatus)
                length
                [.lookup .Xbox360Wired xusbNotify.SerialNo,
                 .enqueueNotification .Xbox360Wired xusbNotify.SerialNo] none
        else
          finishRequest r.status length [] none
  | .IOCTL_DS4_SUBMIT_REPORT =>
    let r := req.retrieveDs4Submit
    if ¬ NT_SUCCESS r.status then
      finishRequest r.status 0 [] none
    else
      let length := r.len
      let ds4Submit := r.buf
      if sizeofDS4_SUBMIT_REPORT = ds4Submit.Size ∧ length = InputBufferLength then
        if ds4Submit.SerialNo = 0 then
          finishRequest STATUS_INVALID_PARAMETER length [] none
        else
          match GetPdoByTypeAndSerial Device .DualShock4Wired ds4Submit.SerialNo with
          | none =>
            finishRequest STATUS_DEVICE_DOES_NOT_EXIST length
              [.lookup .DualShock4Wired ds4Submit.SerialNo] none
          | some pdo =>
            finishRequest pdo.submitReportStatus length
              [.lookup .DualShock4Wired ds4Submit.SerialNo,
               .submitReport .DualShock4Wired ds4Submit.SerialNo] none
      else
        finishRequest r.status length [] none
  | .IOCTL_DS4_REQUEST_NOTIFICATION =>
    if OutputBufferLength < sizeofDS4_REQUEST_NOTIFICATION then
      finishRequest STATUS_INVALID_PARAMETER 0 [] none
    else
      let r := req.retrieveDs4Notify
      if ¬ NT_SUCCESS r.status then
        finishRequest r.status 0 [] none
      else
        let length := r.len
        let ds4Notify := r.buf
        if sizeofDS4_REQUEST_NOTIFICATION = ds4Notify.Size ∧ length = InputBufferLength then
          if ds4Notify.SerialNo = 0 then
            finishRequest STATUS_INVALID_PARAMETER length [] none
          else
            match GetPdoByTypeAndSerial Device .DualShock4Wired ds4Notify.SerialNo with
            | none =>
              finishRequest STATUS_DEVICE_DOES_NOT_EXIST length
                [.lookup .DualShock4Wired ds4Notify.SerialNo] none
            | some pdo =>
              finishRequest
                (if NT_SUCCESS pdo.enqueueNotificationStatus then STATUS_PENDING
                 else pdo.enqueueNotificationStatus)
                length
                [.lookup .DualShock4Wired ds4Notify.SerialNo,
                 .enqueueNotification .DualShock4Wired ds4Notify.SerialNo] none
        else
          finishRequest r.status length [] none
  | .IOCTL_XUSB_GET_USER_INDEX =>
    if OutputBufferLength < sizeofXUSB_GET_USER_INDEX then
      finishRequest STATUS_INVALID_PARAMETER 0 [] none
    else
      let r := req.retrieveXusbGetUserIndex
      if ¬ NT_SUCCESS r.status then
        finishRequest r.status 0 [] none
      else
        let length := r.len
        let p := r.buf
        if sizeofXUSB_GET_USER_INDEX = p.Size ∧ length = InputBufferLength then
          if p.SerialNo = 0 then
            finishRequest STATUS_INVALID_PARAMETER length [] none
          else
            match GetPdoByTypeAndSerial Device .Xbox360Wired p.SerialNo with
            | none =>
              finishRequest STATUS_DEVICE_DOES_NOT_EXIST length
                [.lookup .Xbox360Wired p.SerialNo] none
            | some pdo =>
              finishRequest pdo.getUserIndexStatus length
                [.lookup .Xbox360Wired p.SerialNo, .getUserIndex p.SerialNo]
                (some pdo.userIndex)
        else
          finishRequest r.status length [] none
  | .unknown _ =>
    finishRequest STATUS_INVALID_PARAMETER 0 [] none

/-- Uniform view of a target-scoped operation (the five operations that
carry a Size/SerialNo header and resolve a PDO): its retrieval outcome, the
header fields, the expected fixed input size, the required output capacity
(0 when the operation produces no output) and the target type it resolves. -/
structure TargetOpView where
  status : NtStatus
  len : Nat
  sizeField : Nat
  serialNo : Nat
  expectedSize : Nat
  requiredOutput : Nat
  ttype : TargetType

/-- The view of each target-scoped operation of a request; none for the
operations that are not target-scoped. -/
def targetOpView (req : Request) : IoControlCode → Option TargetOpView
  | .IOCTL_XUSB_SUBMIT_REPORT =>
    some ⟨req.retrieveXusbSubmit.status, req.retrieveXusbSubmit.len,
      req.retrieveXusbSubmit.buf.Size, req.retrieveXusbSubmit.buf.SerialNo,
      sizeofXUSB_SUBMIT_REPORT, 0, .Xbox360Wired⟩
  | .IOCTL_XUSB_REQUEST_NOTIFICATION =>
    some ⟨req.retrieveXusbNotify.status, req.retrieveXusbNotify.len,
      req.retrieveXusbNotify.buf.Size, req.retrieveXusbNotify.buf.SerialNo,
      sizeofXUSB_REQUEST_NOTIFICATION, sizeofXUSB_REQUEST_NOTIFICATION, .Xbox360Wired⟩
  | .IOCTL_DS4_SUBMIT_REPORT =>
    some ⟨req.retrieveDs4Submit.status, req.retrieveDs4Submit.len,
      req.retrieveDs4Submit.buf.Size, req.retrieveDs4Submit.buf.SerialNo,
      sizeofDS4_SUBMIT_REPORT, 0, .DualShock4Wired⟩
  | .IOCTL_DS4_REQUEST_NOTIFICATION =>
    some ⟨req.retrieveDs4Notify.status, req.retrieveDs4Notify.len,
      req.retrieveDs4Notify.buf.Size, req.retrieveDs4Notify.buf.SerialNo,
      sizeofDS4_REQUEST_NOTIFICATION, sizeofDS4_REQUEST_NOTIFICATION, .DualShock4Wired⟩
  | .IOCTL_XUSB_GET_USER_INDEX =>
    some ⟨req.retrieveXusbGetUserIndex.status, req.retrieveXusbGetUserIndex.len,
      req.retrieveXusbGetUserIndex.buf.Size, req.retrieveXusbGetUserIndex.buf.SerialNo,
      sizeofXUSB_GET_USER_INDEX, sizeofXUSB_GET_USER_INDEX, .Xbox360Wired⟩
  | _ => none

/-- The validation-failure conditions of the dispatcher, per operation code:
failed or undersized input retrieval, declared-size mismatch, transport
length mismatch, zero serial, insufficient output capacity, or an unknown
operation code. Plug-in and unplug delegate validation elsewhere and have
no dispatcher-level check. -/
def ValidationFailure (req : Request) (OutputBufferLength InputBufferLength : Nat) :
    IoControlCode → Prop
  | .IOCTL_VIGEM_CHECK_VERSION =>
    ¬ NT_SUCCESS req.retrieveCheckVersion.status ∨
      req.retrieveCheckVersion.len ≠ sizeofVIGEM_CHECK_VERSION
  | .IOCTL_VIGEM_PLUGIN_TARGET => False
  | .IOCTL_VIGEM_UNPLUG_TARGET => False
  | .IOCTL_XUSB_SUBMIT_REPORT =>
    ¬ NT_SUCCESS req.retrieveXusbSubmit.status ∨
      sizeofXUSB_SUBMIT_REPORT ≠ req.retrieveXusbSubmit.buf.Size ∨
      req.retrieveXusbSubmit.len ≠ InputBufferLength ∨
      req.retrieveXusbSubmit.buf.SerialNo = 0
  | .IOCTL_XUSB_REQUEST_NOTIFICATION =>
    OutputBufferLength < sizeofXUSB_REQUEST_NOTIFICATION ∨
      ¬ NT_SUCCESS req.retrieveXusbNotify.status ∨
      sizeofXUSB_REQUEST_NOTIFICATION ≠ req.retrieveXusbNotify.buf.Size ∨
      req.retrieveXusbNotify.len ≠ InputBufferLength ∨
      req.retrieveXusbNotify.buf.SerialNo = 0
  | .IOCTL_DS4_SUBMIT_REPORT =>
    ¬ NT_SUCCESS req.retrieveDs4Submit.status ∨
      sizeofDS4_SUBMIT_REPORT ≠ req.retrieveDs4Submit.buf.Size ∨
      req.retrieveDs4Submit.len ≠ InputBufferLength ∨
      req.retrieveDs4Submit.buf.SerialNo = 0
  | .IOCTL_DS4_REQUEST_NOTIFICATION =>
    OutputBufferLength < sizeofDS4_REQUEST_NOTIFICATION ∨
      ¬ NT_SUCCESS req.retrieveDs4Notify.status ∨
      sizeofDS4_REQUEST_NOTIFICATION ≠ req.retrieveDs4Notify.buf.Size ∨
      req.retrieveDs4Notify.len ≠ InputBufferLength ∨
      req.retrieveDs4Notify.buf.SerialNo = 0
  | .IOCTL_XUSB_GET_USER_INDEX =>
    OutputBufferLength < sizeofXUSB_GET_USER_INDEX ∨
      ¬ NT_SUCCESS req.retrieveXusbGetUserIndex.status ∨
      sizeofXUSB_GET_USER_INDEX ≠ req.retrieveXusbGetUserIndex.buf.Size ∨
      req.retrieveXusbGetUserIndex.len ≠ InputBufferLength ∨
      req.retrieveXusbGetUserIndex.buf.SerialNo = 0
  | .unknown _ => True

/-- Sample PDO used by concrete witnesses: all operations report success,
user index 2. -/
def pdo0 : Pdo :=
  ⟨STATUS_SUCCESS, STATUS_SUCCESS, STATUS_SUCCESS, 2⟩

/-- Sample registry holding one Xbox360Wired target with serial 1. -/
def regXusb1 : Registry :=
  [⟨.Xbox360Wired, 1, pdo0⟩]

/-- A request whose every retrieval succeeded with the correct declared size
for its structure, serial number 1 and exact retrieved length. -/
def baseRequest : Request where
  retrieveCheckVersion :=
    ⟨STATUS_SUCCESS, ⟨sizeofVIGEM_CHECK_VERSION, VIGEM_COMMON_VERSION⟩,
      sizeofVIGEM_CHECK_VERSION⟩
  retrieveXusbSubmit :=
    ⟨STATUS_SUCCESS, ⟨sizeofXUSB_SUBMIT_REPORT, 1⟩, sizeofXUSB_SUBMIT_REPORT⟩
  retrieveXusbNotify :=
    ⟨STATUS_SUCCESS, ⟨sizeofXUSB_REQUEST_NOTIFICATION, 1⟩, sizeofXUSB_REQUEST_NOTIFICATION⟩
  retrieveDs4Submit :=
    ⟨STATUS_SUCCESS, ⟨sizeofDS4_SUBMIT_REPORT, 1⟩, sizeofDS4_SUBMIT_REPORT⟩
  retrieveDs4Notify :=
    ⟨STATUS_SUCCESS, ⟨sizeofDS4_REQUEST_NOTIFICATION, 1⟩, sizeofDS4_REQUEST_NOTIFICATION⟩
  retrieveXusbGetUserIndex :=
    ⟨STATUS_SUCCESS, ⟨sizeofXUSB_GET_USER_INDEX, 1, 0⟩, sizeofXUSB_GET_USER_INDEX⟩
  plugInResult := (STATUS_SUCCESS, 0)
  unplugResult := (STATUS_SUCCESS, 0)

/-- A request like baseRequest but with every declared Size field set to 1
(mismatching every expected structure size). -/
def badSizeRequest : Request :=
  { baseRequest with
    retrieveXusbSubmit := ⟨STATUS_SUCCESS, ⟨1, 5⟩, sizeofXUSB_SUBMIT_REPORT⟩
    retrieveXusbNotify := ⟨STATUS_SUCCESS, ⟨1, 5⟩, sizeofXUSB_REQUEST_NOTIFICATION⟩
    retrieveDs4Submit := ⟨STATUS_SUCCESS, ⟨1, 5⟩, sizeofDS4_SUBMIT_REPORT⟩
    retrieveDs4Notify := ⟨STATUS_SUCCESS, ⟨1, 5⟩, sizeofDS4_REQUEST_NOTIFICATION⟩
    retrieveXusbGetUserIndex := ⟨STATUS_SUCCESS, ⟨1, 5, 0⟩, sizeofXUSB_GET_USER_INDEX⟩ }

/-- A request like baseRequest but with serial number 0 in every
target-scoped structure. -/
def zeroSerialRequest : Request :=
  { baseRequest with
    retrieveXusbSubmit :=
      ⟨STATUS_SUCCESS, ⟨sizeofXUSB_SUBMIT_REPORT, 0⟩, sizeofXUSB_SUBMIT_REPORT⟩
    retrieveXusbNotify :=
      ⟨STATUS_SUCCESS, ⟨sizeofXUSB_REQUEST_NOTIFICATION, 0⟩, sizeofXUSB_REQUEST_NOTIFICATION⟩
    retrieveDs4Submit :=
      ⟨STATUS_SUCCESS, ⟨sizeofDS4_SUBMIT_REPORT, 0⟩, sizeofDS4_SUBMIT_REPORT⟩
    retrieveDs4Notify :=
      ⟨STATUS_SUCCESS, ⟨sizeofDS4_REQUEST_NOTIFICATION, 0⟩, sizeofDS4_REQUEST_NOTIFICATION⟩
    retrieveXusbGetUserIndex :=
      ⟨STATUS_SUCCESS, ⟨sizeofXUSB_GET_USER_INDEX, 0, 0⟩, sizeofXUSB_GET_USER_INDEX⟩ }

/-- Every result the dispatcher builds goes through finishRequest, whose
completion is exactly the conditional completion at the function tail. -/
theorem finishRequest_completion (s : NtStatus) (l : Nat) (a : List Action)
    (w : Option Nat) :
    (finishRequest s l a w).completion =
      if (finishRequest s l a w).status = STATUS_PENDING then none
      else some ((finishRequest s l a w).status, (finishRequest s l a w).length) := rfl

/-- Every branch of the dispatcher ends in finishRequest. -/
theorem dispatch_is_finishRequest (Device : Registry) (req : Request)
    (OutputBufferLength InputBufferLength : Nat) (code : IoControlCode) :
    ∃ s l a w,
      Bus_EvtIoDeviceControl Device req OutputBufferLength InputBufferLength code =
        finishRequest s l a w := by
  cases code <;>
    simp only [Bus_EvtIoDeviceControl] <;>
    (repeat' split) <;>
    exact ⟨_, _, _, _, rfl⟩

/-- C10: every request entering the dispatcher is completed exactly once by
the dispatcher itself with its final (status, length) if and only if the
final status is not Pending; a Pending final status performs no completion,
leaving the request to the parking mechanism. -/
theorem C10_complete_unless_pending (Device : Registry) (req : Request)
    (OutputBufferLength InputBufferLength : Nat) (code : IoControlCode) :
    (Bus_EvtIoDeviceControl Device req OutputBufferLength InputBufferLength code).completion =
      if (Bus_EvtIoDeviceControl Device req OutputBufferLength InputBufferLength code).status
          = STATUS_PENDING then none
      else some
        ((Bus_EvtIoDeviceControl Device req OutputBufferLength InputBufferLength code).status,
         (Bus_EvtIoDeviceControl Device req OutputBufferLength InputBufferLength code).length) := by
  obtain ⟨s, l, a, w, h⟩ :=
    dispatch_is_finishRequest Device req OutputBufferLength InputBufferLength code
  rw [h]
  exact finishRequest_completion s l a w

/-- C7: every operation code outside the known set is rejected with
InvalidParameter (the initial status surviving the default branch) and no
registry or target action is performed. -/
theorem C7_unknown_ioctl_invalid_parameter (Device : Registry) (req : Request)
    (OutputBufferLength InputBufferLength code : Nat) :
    (Bus_EvtIoDeviceControl Device req OutputBufferLength InputBufferLength
        (.unknown code)).status = STATUS_INVALID_PARAMETER ∧
    (Bus_EvtIoDeviceControl Device req OutputBufferLength InputBufferLength
        (.unknown code)).actions = [] :=
  ⟨rfl, rfl⟩

/-- C5: both request-notification operations test the output capacity
before anything else; an undersized output buffer yields a result that is a
fixed constant (InvalidParameter, no action), independent of the registry,
of the retrieval outcome and of the input length. -/
theorem C5_output_capacity_checked_first (Device : Registry) (req : Request)
    (OutputBufferLength InputBufferLength : Nat) :
    (OutputBufferLength < sizeofXUSB_REQUEST_NOTIFICATION →
      Bus_EvtIoDeviceControl Device req OutputBufferLength InputBufferLength
          .IOCTL_XUSB_REQUEST_NOTIFICATION =
        finishRequest STATUS_INVALID_PARAMETER 0 [] none) ∧
    (OutputBufferLength < sizeofDS4_REQUEST_NOTIFICATION →
      Bus_EvtIoDeviceControl Device req OutputBufferLength InputBufferLength
          .IOCTL_DS4_REQUEST_NOTIFICATION =
        finishRequest STATUS_INVALID_PARAMETER 0 [] none) := by
  constructor <;> intro h <;>
    (simp only [Bus_EvtIoDeviceControl]; rw [if_pos h])

/-- C5 witness: an XUSB request-notification with output capacity 0 against
a registry that does hold the requested serial is rejected with
InvalidParameter and an empty action trace. -/
theorem C5_output_capacity_checked_first_witness :
    Bus_EvtIoDeviceControl regXusb1 baseRequest 0 sizeofXUSB_REQUEST_NOTIFICATION
        .IOCTL_XUSB_REQUEST_NOTIFICATION =
      finishRequest STATUS_INVALID_PARAMETER 0 [] none :=
  (C5_output_capacity_checked_first regXusb1 baseRequest 0
      sizeofXUSB_REQUEST_NOTIFICATION).1 (by decide)

/-- C3: a version-check request with a well-formed input buffer succeeds
exactly when the caller-declared version equals the compiled protocol
version, and yields NotSupported for every other version value. -/
theorem C3_version_check_exact_match (Device : Registry) (req : Request)
    (OutputBufferLength InputBufferLength : Nat)
    (hok : NT_SUCCESS req.retrieveCheckVersion.status)
    (hlen : req.retrieveCheckVersion.len = sizeofVIGEM_CHECK_VERSION) :
    ((Bus_EvtIoDeviceControl Device req OutputBufferLength InputBufferLength
        .IOCTL_VIGEM_CHECK_VERSION).status = STATUS_SUCCESS ↔
      req.retrieveCheckVersion.buf.Version = VIGEM_COMMON_VERSION) ∧
    (req.retrieveCheckVersion.buf.Version ≠ VIGEM_COMMON_VERSION →
      (Bus_EvtIoDeviceControl Device req OutputBufferLength InputBufferLength
        .IOCTL_VIGEM_CHECK_VERSION).status = STATUS_NOT_SUPPORTED) := by
  have hcond : ¬ (¬ NT_SUCCESS req.retrieveCheckVersion.status ∨
      (if NT_SUCCESS req.retrieveCheckVersion.status then req.retrieveCheckVersion.len else 0)
        ≠ sizeofVIGEM_CHECK_VERSION) := by
    rw [if_pos hok, hlen]
    exact not_or.mpr ⟨not_not_intro hok, not_not_intro rfl⟩
  simp only [Bus_EvtIoDeviceControl]
  rw [if_neg hcond]
  by_cases hv : req.retrieveCheckVersion.buf.Version = VIGEM_COMMON_VERSION
  · rw [if_pos hv]
    exact ⟨by simp [finishRequest, hv], fun h => absurd hv h⟩
  · rw [if_neg hv]
    refine ⟨?_, fun _ => rfl⟩
    simp only [finishRequest]
    exact ⟨fun h => absurd h (by decide), fun h => absurd h hv⟩

/-- C3 witness: with the compiled version declared, the version check
returns Success on a concrete well-formed request. -/
theorem C3_version_check_exact_match_witness :
    (Bus_EvtIoDeviceControl [] baseRequest 0 sizeofVIGEM_CHECK_VERSION
        .IOCTL_VIGEM_CHECK_VERSION).status = STATUS_SUCCESS :=
  (C3_version_check_exact_match [] baseRequest 0 sizeofVIGEM_CHECK_VERSION
      (by decide) rfl).1.mpr rfl

/-- C2: every target-scoped operation whose input passed the size checks
rejects serial number 0 with InvalidParameter before any registry lookup. -/
theorem C2_zero_serial_invalid_parameter (Device : Registry) (req : Request)
    (OutputBufferLength InputBufferLength : Nat) (code : IoControlCode)
    (v : TargetOpView) (hv : targetOpView req code = some v)
    (hout : v.requiredOutput ≤ OutputBufferLength)
    (hok : NT_SUCCESS v.status)
    (hsz : v.expectedSize = v.sizeField)
    (hlen : v.len = InputBufferLength)
    (hser : v.serialNo = 0) :
    (Bus_EvtIoDeviceControl Device req OutputBufferLength InputBufferLength code).status =
        STATUS_INVALID_PARAMETER ∧
    (Bus_EvtIoDeviceControl Device req OutputBufferLength InputBufferLength code).actions
        = [] := by
  obtain ⟨st, ln, sz, ser, es, ro, tt⟩ := v
  cases code
  case IOCTL_VIGEM_CHECK_VERSION =>
    simp only [targetOpView] at hv; exact Option.noConfusion hv
  case IOCTL_VIGEM_PLUGIN_TARGET =>
    simp only [targetOpView] at hv; exact Option.noConfusion hv
  case IOCTL_VIGEM_UNPLUG_TARGET =>
    simp only [targetOpView] at hv; exact Option.noConfusion hv
  case unknown n =>
    simp only [targetOpView] at hv; exact Option.noConfusion hv
  case IOCTL_XUSB_SUBMIT_REPORT =>
    simp only [targetOpView] at hv
    injection hv with h
    injection h with h1 h2 h3 h4 h5 h6 h7
    subst h1; subst h2; subst h3; subst h4; subst h5; subst h6; subst h7
    simp only [Bus_EvtIoDeviceControl]
    rw [if_neg (not_not_intro hok), if_pos (And.intro hsz hlen), if_pos hser]
    exact ⟨rfl, rfl⟩
  case IOCTL_XUSB_REQUEST_NOTIFICATION =>
    simp only [targetOpView] at hv
    injection hv with h
    injection h with h1 h2 h3 h4 h5 h6 h7
    subst h1; subst h2; subst h3; subst h4; subst h5; subst h6; subst h7
    simp only [Bus_EvtIoDeviceControl]
    rw [if_neg (Nat.not_lt.mpr hout), if_neg (not_not_intro hok),
      if_pos (And.intro hsz hlen), if_pos hser]
    exact ⟨rfl, rfl⟩
  case IOCTL_DS4_SUBMIT_REPORT =>
    simp only [targetOpView] at hv
    injection hv with h
    injection h with h1 h2 h3 h4 h5 h6 h7
    subst h1; subst h2; subst h3; subst h4; subst h5; subst h6; subst h7
    simp only [Bus_EvtIoDeviceControl]
    rw [if_neg (not_not_intro hok), if_pos (And.intro hsz hlen), if_pos hser]
    exact ⟨rfl, rfl⟩
  case IOCTL_DS4_REQUEST_NOTIFICATION =>
    simp only [targetOpView] at hv
    injection hv with h
    injection h with h1 h2 h3 h4 h5 h6 h7
    subst h1; subst h2; subst h3; subst h4; subst h5; subst h6; subst h7
    simp only [Bus_EvtIoDeviceControl]
    rw [if_neg (Nat.not_lt.mpr hout), if_neg (not_not_intro hok),
      if_pos (And.intro hsz hlen), if_pos hser]
    exact ⟨rfl, rfl⟩
  case IOCTL_XUSB_GET_USER_INDEX =>
    simp only [targetOpView] at hv
    injection hv with h
    injection h with h1 h2 h3 h4 h5 h6 h7
    subst h1; subst h2; subst h3; subst h4; subst h5; subst h6; subst h7
    simp only [Bus_EvtIoDeviceControl]
    rw [if_neg (Nat.not_lt.mpr hout), if_neg (not_not_intro hok),
      if_pos (And.intro hsz hlen), if_pos hser]
    exact ⟨rfl, rfl⟩

/-- C2 witness: a concrete XUSB submit-report with valid sizes and serial 0
is rejected with InvalidParameter and an empty action trace even though the
registry is non-empty. -/
theorem C2_zero_serial_invalid_parameter_witness :
    (Bus_EvtIoDeviceControl regXusb1 zeroSerialRequest 0 sizeofXUSB_SUBMIT_REPORT
        .IOCTL_XUSB_SUBMIT_REPORT).status = STATUS_INVALID_PARAMETER ∧
    (Bus_EvtIoDeviceControl regXusb1 zeroSerialRequest 0 sizeofXUSB_SUBMIT_REPORT
        .IOCTL_XUSB_SUBMIT_REPORT).actions = [] :=
  C2_zero_serial_invalid_parameter regXusb1 zeroSerialRequest 0 sizeofXUSB_SUBMIT_REPORT
    .IOCTL_XUSB_SUBMIT_REPORT _ rfl (by decide) (by decide) rfl rfl rfl

/-- C4: a validated target-scoped request with a non-zero serial resolves
its target by exactly one lookup under the type that operation expects; a
miss yields DeviceDoesNotExist with no further lookup, and every lookup the
dispatcher performs is under the expected (type, serial). -/
theorem C4_lookup_expected_type_only (Device : Registry) (req : Request)
    (OutputBufferLength InputBufferLength : Nat) (code : IoControlCode)
    (v : TargetOpView) (hv : targetOpView req code = some v)
    (hout : v.requiredOutput ≤ OutputBufferLength)
    (hok : NT_SUCCESS v.status)
    (hsz : v.expectedSize = v.sizeField)
    (hlen : v.len = InputBufferLength)
    (hser : v.serialNo ≠ 0) :
    (GetPdoByTypeAndSerial Device v.ttype v.serialNo = none →
      (Bus_EvtIoDeviceControl Device req OutputBufferLength InputBufferLength code).status =
          STATUS_DEVICE_DOES_NOT_EXIST ∧
      (Bus_EvtIoDeviceControl Device req OutputBufferLength InputBufferLength code).actions =
          [Action.lookup v.ttype v.serialNo]) ∧
    (∀ t s, Action.lookup t s ∈
        (Bus_EvtIoDeviceControl Device req OutputBufferLength InputBufferLength code).actions →
      t = v.ttype ∧ s = v.serialNo) := by
  obtain ⟨st, ln, sz, ser, es, ro, tt⟩ := v
  cases code
  case IOCTL_VIGEM_CHECK_VERSION =>
    simp only [targetOpView] at hv; exact Option.noConfusion hv
  case IOCTL_VIGEM_PLUGIN_TARGET =>
    simp only [targetOpView] at hv; exact Option.noConfusion hv
  case IOCTL_VIGEM_UNPLUG_TARGET =>
    simp only [targetOpView] at hv; exact Option.noConfusion hv
  case unknown n =>
    simp only [targetOpView] at hv; exact Option.noConfusion hv
  case IOCTL_XUSB_SUBMIT_REPORT =>
    simp only [targetOpView] at hv
    injection hv with h
    injection h with h1 h2 h3 h4 h5 h6 h7
    subst h1; subst h2; subst h3; subst h4; subst h5; subst h6; subst h7
    simp only [Bus_EvtIoDeviceControl]
    rw [if_neg (not_not_intro hok), if_pos (And.intro hsz hlen), if_neg hser]
    cases hl : GetPdoByTypeAndSerial Device .Xbox360Wired req.retrieveXusbSubmit.buf.SerialNo with
    | none =>
      refine ⟨fun _ => ⟨rfl, rfl⟩, ?_⟩
      intro t s hm
      simp only [finishRequest, List.mem_singleton] at hm
      injection hm with a b
      exact ⟨a, b⟩
    | some pdo =>
      refine ⟨fun hnone => Option.noConfusion hnone, ?_⟩
      intro t s hm
      simp only [finishRequest, List.mem_cons, List.mem_singleton] at hm
      rcases hm with h | h | h
      · injection h with a b; exact ⟨a, b⟩
      · exact Action.noConfusion h
      · exact absurd h (List.not_mem_nil _)
  case IOCTL_XUSB_REQUEST_NOTIFICATION =>
    simp only [targetOpView] at hv
    injection hv with h
    injection h with h1 h2 h3 h4 h5 h6 h7
    subst h1; subst h2; subst h3; subst h4; subst h5; subst h6; subst h7
    simp only [Bus_EvtIoDeviceControl]
    rw [if_neg (Nat.not_lt.mpr hout), if_neg (not_not_intro hok),
      if_pos (And.intro hsz hlen), if_neg hser]
    cases hl : GetPdoByTypeAndSerial Device .Xbox360Wired req.retrieveXusbNotify.buf.SerialNo with
    | none =>
      refine ⟨fun _ => ⟨rfl, rfl⟩, ?_⟩
      intro t s hm
      simp only [finishRequest, List.mem_singleton] at hm
      injection hm with a b
      exact ⟨a, b⟩
    | some pdo =>
      refine ⟨fun hnone => Option.noConfusion hnone, ?_⟩
      intro t s hm
      simp only [finishRequest, List.mem_cons, List.mem_singleton] at hm
      rcases hm with h | h | h
      · injection h with a b; exact ⟨a, b⟩
      · exact Action.noConfusion h
      · exact absurd h (List.not_mem_nil _)
  case IOCTL_DS4_SUBMIT_REPORT =>
    simp only [targetOpView] at hv
    injection hv with h
    injection h with h1 h2 h3 h4 h5 h6 h7
    subst h1; subst h2; subst h3; subst h4; subst h5; subst h6; subst h7
    simp only [Bus_EvtIoDeviceControl]
    rw [if_neg (not_not_intro hok), if_pos (And.intro hsz hlen), if_neg hser]
    cases hl : GetPdoByTypeAndSerial Device .DualShock4Wired req.retrieveDs4Submit.buf.SerialNo with
    | none =>
      refine ⟨fun _ => ⟨rfl, rfl⟩, ?_⟩
      intro t s hm
      simp only [finishRequest, List.mem_singleton] at hm
      injection hm with a b
      exact ⟨a, b⟩
    | some pdo =>
      refine ⟨fun hnone => Option.noConfusion hnone, ?_⟩
      intro t s hm
      simp only [finishRequest, List.mem_cons, List.mem_singleton] at hm
      rcases hm with h | h | h
      · injection h with a b; exact ⟨a, b⟩
      · exact Action.noConfusion h
      · exact absurd h (List.not_mem_nil _)
  case IOCTL_DS4_REQUEST_NOTIFICATION =>
    simp only [targetOpView] at hv
    injection hv with h
    injection h with h1 h2 h3 h4 h5 h6 h7
    subst h1; subst h2; subst h3; subst h4; subst h5; subst h6; subst h7
    simp only [Bus_EvtIoDeviceControl]
    rw [if_neg (Nat.not_lt.mpr hout), if_neg (not_not_intro hok),
      if_pos (And.intro hsz hlen), if_neg hser]
    cases hl : GetPdoByTypeAndSerial Device .DualShock4Wired req.retrieveDs4Notify.buf.SerialNo with
    | none =>
      refine ⟨fun _ => ⟨rfl, rfl⟩, ?_⟩
      intro t s hm
      simp only [finishRequest, List.mem_singleton] at hm
      injection hm with a b
      exact ⟨a, b⟩
    | some pdo =>
      refine ⟨fun hnone => Option.noConfusion hnone, ?_⟩
      intro t s hm
      simp only [finishRequest, List.mem_cons, List.mem_singleton] at hm
      rcases hm with h | h | h
      · injection h with a b; exact ⟨a, b⟩
      · exact Action.noConfusion h
      · exact absurd h (List.not_mem_nil _)
  case IOCTL_XUSB_GET_USER_INDEX =>
    simp only [targetOpView] at hv
    injection hv with h
    injection h with h1 h2 h3 h4 h5 h6 h7
    subst h1; subst h2; subst h3; subst h4; subst h5; subst h6; subst h7
    simp only [Bus_EvtIoDeviceControl]
    rw [if_neg (Nat.not_lt.mpr hout), if_neg (not_not_intro hok),
      if_pos (And.intro hsz hlen), if_neg hser]
    cases hl : GetPdoByTypeAndSerial Device .Xbox360Wired
        req.retrieveXusbGetUserIndex.buf.SerialNo with
    | none =>
      refine ⟨fun _ => ⟨rfl, rfl⟩, ?_⟩
      intro t s hm
      simp only [finishRequest, List.mem_singleton] at hm
      injection hm with a b
      exact ⟨a, b⟩
    | some pdo =>
      refine ⟨fun hnone => Option.noConfusion hnone, ?_⟩
      intro t s hm
      simp only [finishRequest, List.mem_cons, List.mem_singleton] at hm
      rcases hm with h | h | h
      · injection h with a b; exact ⟨a, b⟩
      · exact Action.noConfusion h
      · exact absurd h (List.not_mem_nil _)

/-- C4 witness: a valid XUSB submit-report with serial 1 against the empty
registry returns DeviceDoesNotExist after exactly one Xbox360Wired lookup. -/
theorem C4_lookup_expected_type_only_witness :
    (Bus_EvtIoDeviceControl [] baseRequest 0 sizeofXUSB_SUBMIT_REPORT
        .IOCTL_XUSB_SUBMIT_REPORT).status = STATUS_DEVICE_DOES_NOT_EXIST ∧
    (Bus_EvtIoDeviceControl [] baseRequest 0 sizeofXUSB_SUBMIT_REPORT
        .IOCTL_XUSB_SUBMIT_REPORT).actions = [Action.lookup .Xbox360Wired 1] :=
  (C4_lookup_expected_type_only [] baseRequest 0 sizeofXUSB_SUBMIT_REPORT
      .IOCTL_XUSB_SUBMIT_REPORT _ rfl (by decide) (by decide) rfl rfl (by decide)).1 rfl

/-- C1 counterexample: an XUSB submit-report whose input buffer was
retrieved with STATUS_SUCCESS, whose declared Size field (1) mismatches the
expected structure size, and whose retrieved length equals the transport
length, completes with STATUS_SUCCESS, not InvalidParameter. -/
theorem C1_size_mismatch_not_invalid_parameter_cex :
    NT_SUCCESS badSizeRequest.retrieveXusbSubmit.status ∧
    sizeofXUSB_SUBMIT_REPORT ≠ badSizeRequest.retrieveXusbSubmit.buf.Size ∧
    badSizeRequest.retrieveXusbSubmit.len = sizeofXUSB_SUBMIT_REPORT ∧
    (Bus_EvtIoDeviceControl regXusb1 badSizeRequest 0 sizeofXUSB_SUBMIT_REPORT
        .IOCTL_XUSB_SUBMIT_REPORT).status = STATUS_SUCCESS ∧
    STATUS_SUCCESS ≠ STATUS_INVALID_PARAMETER := by
  decide

/-- C1 as amended: when the input buffer of a submit-report,
request-notification or get-user-index request was successfully retrieved
but the declared Size field mismatches the expected structure size or the
retrieved length mismatches the transport input length, the dispatcher
performs no registry or target action and completes with the status of the
retrieval itself (Success), not InvalidParameter. -/
theorem C1_size_mismatch_keeps_retrieval_status (Device : Registry) (req : Request)
    (OutputBufferLength InputBufferLength : Nat) (code : IoControlCode)
    (v : TargetOpView) (hv : targetOpView req code = some v)
    (hout : v.requiredOutput ≤ OutputBufferLength)
    (hok : NT_SUCCESS v.status)
    (hbad : v.expectedSize ≠ v.sizeField ∨ v.len ≠ InputBufferLength) :
    (Bus_EvtIoDeviceControl Device req OutputBufferLength InputBufferLength code).status =
        v.status ∧
    (Bus_EvtIoDeviceControl Device req OutputBufferLength InputBufferLength code).actions
        = [] := by
  obtain ⟨st, ln, sz, ser, es, ro, tt⟩ := v
  cases code
  case IOCTL_VIGEM_CHECK_VERSION =>
    simp only [targetOpView] at hv; exact Option.noConfusion hv
  case IOCTL_VIGEM_PLUGIN_TARGET =>
    simp only [targetOpView] at hv; exact Option.noConfusion hv
  case IOCTL_VIGEM_UNPLUG_TARGET =>
    simp only [targetOpView] at hv; exact Option.noConfusion hv
  case unknown n =>
    simp only [targetOpView] at hv; exact Option.noConfusion hv
  case IOCTL_XUSB_SUBMIT_REPORT =>
    simp only [targetOpView] at hv
    injection hv with h
    injection h with h1 h2 h3 h4 h5 h6 h7
    subst h1; subst h2; subst h3; subst h4; subst h5; subst h6; subst h7
    simp only [Bus_EvtIoDeviceControl]
    rw [if_neg (not_not_intro hok),
      if_neg (fun hc => hbad.elim (fun hb => hb hc.1) (fun hb => hb hc.2))]
    exact ⟨rfl, rfl⟩
  case IOCTL_XUSB_REQUEST_NOTIFICATION =>
    simp only [targetOpView] at hv
    injection hv with h
    injection h with h1 h2 h3 h4 h5 h6 h7
    subst h1; subst h2; subst h3; subst h4; subst h5; subst h6; subst h7
    simp only [Bus_EvtIoDeviceControl]
    rw [if_neg (Nat.not_lt.mpr hout), if_neg (not_not_intro hok),
      if_neg (fun hc => hbad.elim (fun hb => hb hc.1) (fun hb => hb hc.2))]
    exact ⟨rfl, rfl⟩
  case IOCTL_DS4_SUBMIT_REPORT =>
    simp only [targetOpView] at hv
    injection hv with h
    injection h with h1 h2 h3 h4 h5 h6 h7
    subst h1; subst h2; subst h3; subst h4; subst h5; subst h6; subst h7
    simp only [Bus_EvtIoDeviceControl]
    rw [if_neg (not_not_intro hok),
      if_neg (fun hc => hbad.elim (fun hb => hb hc.1) (fun hb => hb hc.2))]
    exact ⟨rfl, rfl⟩
  case IOCTL_DS4_REQUEST_NOTIFICATION =>
    simp only [targetOpView] at hv
    injection hv with h
    injection h with h1 h2 h3 h4 h5 h6 h7
    subst h1; subst h2; subst h3; subst h4; subst h5; subst h6; subst h7
    simp only [Bus_EvtIoDeviceControl]
    rw [if_neg (Nat.not_lt.mpr hout), if_neg (not_not_intro hok),
      if_neg (fun hc => hbad.elim (fun hb => hb hc.1) (fun hb => hb hc.2))]
    exact ⟨rfl, rfl⟩
  case IOCTL_XUSB_GET_USER_INDEX =>
    simp only [targetOpView] at hv
    injection hv with h
    injection h with h1 h2 h3 h4 h5 h6 h7
    subst h1; subst h2; subst h3; subst h4; subst h5; subst h6; subst h7
    simp only [Bus_EvtIoDeviceControl]
    rw [if_neg (Nat.not_lt.mpr hout), if_neg (not_not_intro hok),
      if_neg (fun hc => hbad.elim (fun hb => hb hc.1) (fun hb => hb hc.2))]
    exact ⟨rfl, rfl⟩

/-- C1 amended witness: the concrete mismatched request of the
counterexample indeed completes with the retrieval status and no action. -/
theorem C1_size_mismatch_keeps_retrieval_status_witness :
    (Bus_EvtIoDeviceControl regXusb1 badSizeRequest 0 sizeofXUSB_SUBMIT_REPORT
        .IOCTL_XUSB_SUBMIT_REPORT).status = STATUS_SUCCESS ∧
    (Bus_EvtIoDeviceControl regXusb1 badSizeRequest 0 sizeofXUSB_SUBMIT_REPORT
        .IOCTL_XUSB_SUBMIT_REPORT).actions = [] :=
  C1_size_mismatch_keeps_retrieval_status regXusb1 badSizeRequest 0
    sizeofXUSB_SUBMIT_REPORT .IOCTL_XUSB_SUBMIT_REPORT _ rfl (by decide) (by decide)
    (Or.inl (by decide))

/-- C6: a request-notification that passes all validation and resolves a
live target signals the non-terminal Pending status when EnqueueNotification
reports success (Pending being distinct from every terminal status, and no
completion being performed), while an EnqueueNotification error is returned
synchronously as the terminal status of an immediate completion. -/
theorem C6_enqueue_pending_or_synchronous_error (Device : Registry) (req : Request)
    (OutputBufferLength InputBufferLength : Nat) (code : IoControlCode)
    (hcode : code = .IOCTL_XUSB_REQUEST_NOTIFICATION ∨
      code = .IOCTL_DS4_REQUEST_NOTIFICATION)
    (v : TargetOpView) (hv : targetOpView req code = some v)
    (hout : v.requiredOutput ≤ OutputBufferLength)
    (hok : NT_SUCCESS v.status)
    (hsz : v.expectedSize = v.sizeField)
    (hlen : v.len = InputBufferLength)
    (hser : v.serialNo ≠ 0)
    (pdo : Pdo) (hl : GetPdoByTypeAndSerial Device v.ttype v.serialNo = some pdo) :
    (NT_SUCCESS pdo.enqueueNotificationStatus →
      (Bus_EvtIoDeviceControl Device req OutputBufferLength InputBufferLength code).status =
          STATUS_PENDING ∧
      (Bus_EvtIoDeviceControl Device req OutputBufferLength InputBufferLength code).completion
          = none) ∧
    (¬ NT_SUCCESS pdo.enqueueNotificationStatus →
      (Bus_EvtIoDeviceControl Device req OutputBufferLength InputBufferLength code).status =
          pdo.enqueueNotificationStatus ∧
      (Bus_EvtIoDeviceControl Device req OutputBufferLength InputBufferLength code).completion
          = some (pdo.enqueueNotificationStatus, v.len)) ∧
    STATUS_PENDING ≠ STATUS_SUCCESS ∧
    STATUS_PENDING ≠ STATUS_INVALID_PARAMETER ∧
    STATUS_PENDING ≠ STATUS_NOT_SUPPORTED ∧
    STATUS_PENDING ≠ STATUS_DEVICE_DOES_NOT_EXIST ∧
    STATUS_PENDING ≠ STATUS_INVALID_DEVICE_REQUEST := by
  obtain ⟨st, ln, sz, ser, es, ro, tt⟩ := v
  rcases hcode with rfl | rfl
  all_goals (
    simp only [targetOpView] at hv
    injection hv with h
    injection h with h1 h2 h3 h4 h5 h6 h7
    subst h1; subst h2; subst h3; subst h4; subst h5; subst h6; subst h7
    simp only [Bus_EvtIoDeviceControl]
    rw [if_neg (Nat.not_lt.mpr hout), if_neg (not_not_intro hok),
      if_pos (And.intro hsz hlen), if_neg hser]
    simp only [hl]
    refine ⟨?_, ?_, by decide, by decide, by decide, by decide, by decide⟩
    · intro he
      rw [if_pos he]
      exact ⟨rfl, by simp [finishRequest]⟩
    · intro he
      rw [if_neg he]
      refine ⟨rfl, ?_⟩
      simp only [finishRequest]
      rw [if_neg (fun hEq => he (by rw [hEq]; decide))])

/-- C6 witness: a concrete valid XUSB request-notification resolving the
registered target with a succeeding EnqueueNotification ends with
STATUS_PENDING and no completion. -/
theorem C6_enqueue_pending_or_synchronous_error_witness :
    (Bus_EvtIoDeviceControl regXusb1 baseRequest sizeofXUSB_REQUEST_NOTIFICATION
        sizeofXUSB_REQUEST_NOTIFICATION .IOCTL_XUSB_REQUEST_NOTIFICATION).status =
        STATUS_PENDING ∧
    (Bus_EvtIoDeviceControl regXusb1 baseRequest sizeofXUSB_REQUEST_NOTIFICATION
        sizeofXUSB_REQUEST_NOTIFICATION .IOCTL_XUSB_REQUEST_NOTIFICATION).completion =
        none :=
  (C6_enqueue_pending_or_synchronous_error regXusb1 baseRequest
      sizeofXUSB_REQUEST_NOTIFICATION sizeofXUSB_REQUEST_NOTIFICATION
      .IOCTL_XUSB_REQUEST_NOTIFICATION (Or.inl rfl) _ rfl (by decide) (by decide)
      rfl rfl (by decide) pdo0 rfl).1 (by decide)

/-- C8: on every request failing a dispatcher validation check (failed or
undersized retrieval, declared-size mismatch, transport length mismatch,
zero serial, insufficient output capacity, unknown operation code) the
dispatcher performs no registry or target call at all, so the registry and
all target state are untouched and repeating the request changes nothing. -/
theorem C8_validation_failure_no_mutation (Device : Registry) (req : Request)
    (OutputBufferLength InputBufferLength : Nat) (code : IoControlCode)
    (hfail : ValidationFailure req OutputBufferLength InputBufferLength code) :
    (Bus_EvtIoDeviceControl Device req OutputBufferLength InputBufferLength code).actions
        = [] := by
  cases code
  all_goals simp only [ValidationFailure] at hfail
  case unknown n => rfl
  case IOCTL_VIGEM_CHECK_VERSION =>
    simp only [Bus_EvtIoDeviceControl]
    (repeat' split) <;> rfl
  case IOCTL_XUSB_SUBMIT_REPORT =>
    simp only [Bus_EvtIoDeviceControl]
    split
    · rfl
    · rename_i hok2
      split
      · rename_i hsz2
        split
        · rfl
        · rename_i hser2
          rcases hfail with h | h | h | h
          · exact absurd (not_not.mp hok2) h
          · exact absurd hsz2.1 h
          · exact absurd hsz2.2 h
          · exact absurd h hser2
      · rfl
  case IOCTL_XUSB_REQUEST_NOTIFICATION =>
    simp only [Bus_EvtIoDeviceControl]
    split
    · rfl
    · rename_i hout2
      split
      · rfl
      · rename_i hok2
        split
        · rename_i hsz2
          split
          · rfl
          · rename_i hser2
            rcases hfail with h | h | h | h | h
            · exact absurd h hout2
            · exact absurd (not_not.mp hok2) h
            · exact absurd hsz2.1 h
            · exact absurd hsz2.2 h
            · exact absurd h hser2
        · rfl
  case IOCTL_DS4_SUBMIT_REPORT =>
    simp only [Bus_EvtIoDeviceControl]
    split
    · rfl
    · rename_i hok2
      split
      · rename_i hsz2
        split
        · rfl
        · rename_i hser2
          rcases hfail with h | h | h | h
          · exact absurd (not_not.mp hok2) h
          · exact absurd hsz2.1 h
          · exact absurd hsz2.2 h
          · exact absurd h hser2
      · rfl
  case IOCTL_DS4_REQUEST_NOTIFICATION =>
    simp only [Bus_EvtIoDeviceControl]
    split
    · rfl
    · rename_i hout2
      split
      · rfl
      · rename_i hok2
        split
        · rename_i hsz2
          split
          · rfl
          · rename_i hser2
            rcases hfail with h | h | h | h | h
            · exact absurd h hout2
            · exact absurd (not_not.mp hok2) h
            · exact absurd hsz2.1 h
            · exact absurd hsz2.2 h
            · exact absurd h hser2
        · rfl
  case IOCTL_XUSB_GET_USER_INDEX =>
    simp only [Bus_EvtIoDeviceControl]
    split
    · rfl
    · rename_i hout2
      split
      · rfl
      · rename_i hok2
        split
        · rename_i hsz2
          split
          · rfl
          · rename_i hser2
            rcases hfail with h | h | h | h | h
            · exact absurd h hout2
            · exact absurd (not_not.mp hok2) h
            · exact absurd hsz2.1 h
            · exact absurd hsz2.2 h
            · exact absurd h hser2
        · rfl

/-- C8 witness: a DS4 request-notification carrying serial 0 against a
non-empty registry performs no registry or target call. -/
theorem C8_validation_failure_no_mutation_witness :
    (Bus_EvtIoDeviceControl regXusb1 zeroSerialRequest sizeofDS4_REQUEST_NOTIFICATION
        sizeofDS4_REQUEST_NOTIFICATION .IOCTL_DS4_REQUEST_NOTIFICATION).actions = [] :=
  C8_validation_failure_no_mutation regXusb1 zeroSerialRequest
    sizeofDS4_REQUEST_NOTIFICATION sizeofDS4_REQUEST_NOTIFICATION
    .IOCTL_DS4_REQUEST_NOTIFICATION (Or.inr (Or.inr (Or.inr (Or.inr rfl))))

/-- C9: the get-user-index operation, validated, only ever looks up an
Xbox360Wired target; a miss returns DeviceDoesNotExist and a hit writes the
target's user index into the output structure's attribute field (the
GetUserIndex target call being modelled from the spec). -/
theorem C9_get_user_index_xusb_only (Device : Registry) (req : Request)
    (OutputBufferLength InputBufferLength : Nat)
    (hout : sizeofXUSB_GET_USER_INDEX ≤ OutputBufferLength)
    (hok : NT_SUCCESS req.retrieveXusbGetUserIndex.status)
    (hsz : sizeofXUSB_GET_USER_INDEX = req.retrieveXusbGetUserIndex.buf.Size)
    (hlen : req.retrieveXusbGetUserIndex.len = InputBufferLength)
    (hser : req.retrieveXusbGetUserIndex.buf.SerialNo ≠ 0) :
    (∀ t s, Action.lookup t s ∈
        (Bus_EvtIoDeviceControl Device req OutputBufferLength InputBufferLength
          .IOCTL_XUSB_GET_USER_INDEX).actions → t = TargetType.Xbox360Wired) ∧
    (GetPdoByTypeAndSerial Device .Xbox360Wired req.retrieveXusbGetUserIndex.buf.SerialNo
        = none →
      (Bus_EvtIoDeviceControl Device req OutputBufferLength InputBufferLength
        .IOCTL_XUSB_GET_USER_INDEX).status = STATUS_DEVICE_DOES_NOT_EXIST) ∧
    (∀ pdo, GetPdoByTypeAndSerial Device .Xbox360Wired
          req.retrieveXusbGetUserIndex.buf.SerialNo = some pdo →
      (Bus_EvtIoDeviceControl Device req OutputBufferLength InputBufferLength
          .IOCTL_XUSB_GET_USER_INDEX).writtenUserIndex = some pdo.userIndex ∧
      (Bus_EvtIoDeviceControl Device req OutputBufferLength InputBufferLength
          .IOCTL_XUSB_GET_USER_INDEX).status = pdo.getUserIndexStatus) := by
  simp only [Bus_EvtIoDeviceControl]
  rw [if_neg (Nat.not_lt.mpr hout), if_neg (not_not_intro hok),
    if_pos (And.intro hsz hlen), if_neg hser]
  cases hl : GetPdoByTypeAndSerial Device .Xbox360Wired
      req.retrieveXusbGetUserIndex.buf.SerialNo with
  | none =>
    refine ⟨?_, fun _ => rfl, fun pdo hp => Option.noConfusion hp⟩
    intro t s hm
    simp only [finishRequest, List.mem_singleton] at hm
    injection hm
  | some pdo =>
    refine ⟨?_, fun hnone => Option.noConfusion hnone, ?_⟩
    · intro t s hm
      simp only [finishRequest, List.mem_cons, List.mem_singleton] at hm
      rcases hm with h | h | h
      · injection h
      · exact Action.noConfusion h
      · exact absurd h (List.not_mem_nil _)
    · intro pdo2 hp
      injection hp with hp2
      subst hp2
      exact ⟨rfl, rfl⟩

/-- C9 witness: a concrete validated get-user-index on serial 1 against a
registry holding that Xbox360Wired target writes user index 2 and returns
the target's GetUserIndex status. -/
theorem C9_get_user_index_xusb_only_witness :
    (Bus_EvtIoDeviceControl regXusb1 baseRequest sizeofXUSB_GET_USER_INDEX
        sizeofXUSB_GET_USER_INDEX .IOCTL_XUSB_GET_USER_INDEX).writtenUserIndex =
        some pdo0.userIndex ∧
    (Bus_EvtIoDeviceControl regXusb1 baseRequest sizeofXUSB_GET_USER_INDEX
        sizeofXUSB_GET_USER_INDEX .IOCTL_XUSB_GET_USER_INDEX).status =
        pdo0.getUserIndexStatus :=
  (C9_get_user_index_xusb_only regXusb1 baseRequest sizeofXUSB_GET_USER_INDEX
      sizeofXUSB_GET_USER_INDEX (by decide) (by decide) rfl rfl (by decide)).2.2 pdo0 rfl

end ViGEmBus
